import Mathlib

/-!
Verification of the ecomGateway repository: a shallow embedding of the
RPC client adapter layer (user, order, product), the retry policy
configuration, the processor and HTTP facade, the JWT claim decoder and
the environment-variable configuration loader, together with theorems
settling the specification claims.

Conventions of the embedding:
- Go `int64` / `int32` values are modelled as `Int` (no arithmetic is
  performed on them anywhere in the embedded code, so overflow cannot
  arise).
- Go `error` values are modelled by their message `String`; `fmt.Errorf`
  with `"%s: %w"` becomes string concatenation with `": "`.
- A generated gRPC stub call (`c.api.Method(ctx, req)`) is modelled by a
  function argument `api : Request → Except String Response`: the adapter
  builds the request, applies the stub, and handles the result exactly as
  the Go source does.
- `log.Fatal` in the config loader is modelled as `Except.error` (the
  process refuses to start); a Go nil-pointer dereference panic is a
  distinct `GoResult.nilPanic` outcome.
-/

set_option maxHeartbeats 1000000

/-- gRPC status codes (the kinds that occur in the repository's sources and
tests, plus a catch-all for every other code). -/
inductive Code where
  | ok
  | cancelled
  | invalidArgument
  | deadlineExceeded
  | notFound
  | alreadyExists
  | aborted
  | internal
  | unavailable
  | unimplemented
  | unauthenticated
  | other (n : Nat)
  deriving DecidableEq, Repr

/-- The retryable status set passed to `grpcretry.WithCodes` in
`usergrpc.New`, `ordergrpc.New` and `productgrpc.New`:
`codes.NotFound, codes.Aborted, codes.DeadlineExceeded`. -/
def retryableCodes : List Code :=
  [Code.notFound, Code.aborted, Code.deadlineExceeded]

/-- Whether a status code is in the configured retryable set. -/
def isRetryable (c : Code) : Bool := decide (c ∈ retryableCodes)

/-- Modelled from the spec: the retry loop itself is implemented by the
external `grpc-middleware` retry interceptor, not by code in this
repository; the adapters only configure it (`WithCodes`, `WithMax`,
`WithPerRetryTimeout`).  Spec section 4.2: at most `max retries`
additional attempts beyond the first, a retryable-status failure triggers
the next attempt while budget remains, any other status is returned
immediately, and on exhaustion the last observed status is surfaced.
`run i` is the backend outcome of attempt number `i` (0-based),
`remaining` is the remaining retry budget; the result pairs the number of
attempts issued with the final outcome. -/
def retryGo {α : Type} (run : Nat → Except Code α) :
    Nat → Nat → Nat × Except Code α
  | 0, i =>
    match run i with
    | Except.ok a => (i + 1, Except.ok a)
    | Except.error c => (i + 1, Except.error c)
  | r + 1, i =>
    match run i with
    | Except.ok a => (i + 1, Except.ok a)
    | Except.error c =>
      if isRetryable c then retryGo run r (i + 1)
      else (i + 1, Except.error c)

/-- Modelled from the spec: a full retried call with retry budget
`maxRetries` (the `retriesCount` the adapter passes to `WithMax`),
starting at attempt 0. -/
def retryCall {α : Type} (maxRetries : Nat) (run : Nat → Except Code α) :
    Nat × Except Code α :=
  retryGo run maxRetries 0

theorem retryGo_all_retryable {α : Type} (run : Nat → Except Code α)
    (cs : Nat → Code) (hall : ∀ i, run i = Except.error (cs i))
    (hret : ∀ i, isRetryable (cs i) = true) :
    ∀ remaining i,
      retryGo run remaining i = (i + remaining + 1, Except.error (cs (i + remaining))) := by
  intro remaining
  induction remaining with
  | zero =>
    intro i
    simp [retryGo, hall i]
  | succ r ih =>
    intro i
    simp only [retryGo, hall i, hret i, if_true]
    rw [ih (i + 1)]
    have h1 : i + 1 + r = i + (r + 1) := by omega
    rw [h1]

/-- C1: a call failing each attempt with a retryable status issues exactly
`1 + maxRetries` attempts and surfaces the last observed status; a call
whose first attempt fails with a non-retryable status issues exactly 1
attempt and returns that status immediately; and the retryable set is
exactly {NOT_FOUND, ABORTED, DEADLINE_EXCEEDED}. -/
theorem retry_attempt_budget (maxRetries : Nat) (cs : Nat → Code)
    (run : Nat → Except Code Unit)
    (hall : ∀ i, run i = Except.error (cs i)) :
    ((∀ i, isRetryable (cs i) = true) →
      retryCall maxRetries run = (1 + maxRetries, Except.error (cs maxRetries))) ∧
    (isRetryable (cs 0) = false →
      retryCall maxRetries run = (1, Except.error (cs 0))) ∧
    (∀ c : Code, isRetryable c = true ↔
      (c = Code.notFound ∨ c = Code.aborted ∨ c = Code.deadlineExceeded)) := by
  refine ⟨?_, ?_, ?_⟩
  · intro hret
    unfold retryCall
    rw [retryGo_all_retryable run cs hall hret maxRetries 0]
    have h0 : 0 + maxRetries = maxRetries := Nat.zero_add _
    rw [h0, Nat.add_comm maxRetries 1]
  · intro hfalse
    unfold retryCall
    cases maxRetries with
    | zero => simp [retryGo, hall 0]
    | succ r => simp [retryGo, hall 0, hfalse]
  · intro c
    cases c <;> simp [isRetryable, retryableCodes]

/-- C1 witness: with retry budget 2 and every attempt failing with
NOT_FOUND, exactly 3 attempts are issued; needed to instantiate the
hypotheses of `retry_attempt_budget`. -/
theorem retry_attempt_budget_witness :
    retryCall 2 (fun _ => (Except.error Code.notFound : Except Code Unit)) =
      (1 + 2, Except.error Code.notFound) :=
  (retry_attempt_budget 2 (fun _ => Code.notFound)
    (fun _ => Except.error Code.notFound) (fun _ => rfl)).1 (fun _ => rfl)

/-- Substring containment: `strContains s sub` holds when `sub` occurs
contiguously inside `s` (models testify's `assert.Contains` /
`strings.Contains`). -/
def strContains (s sub : String) : Bool := decide (sub.data <:+: s.data)

/-- fmt.Errorf with format "%s: %w": the operation tag, a colon-space
separator, and the wrapped error message. -/
def wrapOp (op e : String) : String := op ++ ": " ++ e

theorem wrapOp_contains_tag (op e : String) :
    strContains (wrapOp op e) op = true := by
  unfold wrapOp strContains
  rw [decide_eq_true_iff]
  exact ⟨[], (": " ++ e).data, by simp [String.data_append]⟩

/-- order1.OrderItem (fields ProductId, Quantity, Price). -/
structure OrderItem where
  productId : Int
  quantity : Int
  price : Int
  deriving DecidableEq, Repr

/-- order1.CreateOrderRequest (fields UserId, Items). -/
structure CreateOrderRequest where
  userId : Int
  items : List OrderItem
  deriving DecidableEq, Repr

/-- order1.CreateOrderResponse (fields OrderId, TotalPrice). -/
structure CreateOrderResponse where
  orderId : Int
  totalPrice : Int
  deriving DecidableEq, Repr

/-- order1.OrderDetails. -/
structure OrderDetails where
  orderId : Int
  userId : Int
  totalPrice : Int
  items : List OrderItem
  status : String
  deriving DecidableEq, Repr

/-- order1.GetOrderRequest. -/
structure GetOrderRequest where
  orderId : Int
  deriving DecidableEq, Repr

/-- order1.GetOrderResponse: the embedded OrderDetails pointer may be nil. -/
structure GetOrderResponse where
  orderDetails : Option OrderDetails
  deriving DecidableEq, Repr

/-- order1.ListUserOrdersRequest. -/
structure ListUserOrdersRequest where
  userId : Int
  deriving DecidableEq, Repr

/-- order1.ListUserOrdersResponse. -/
structure ListUserOrdersResponse where
  orders : List OrderDetails
  deriving DecidableEq, Repr

/-- ordergrpc.NewOrderItem: builds an order1.OrderItem from the three
field values. -/
def NewOrderItem (productID : Int) (quantity : Int) (price : Int) : OrderItem :=
  { productId := productID, quantity := quantity, price := price }

/-- ordergrpc.Client.CreateOrder: builds the CreateOrderRequest from
userID and items, calls the stub, wraps a failure with op
"grpc.order.create_order", and returns (OrderId, TotalPrice) on success. -/
def CreateOrder (api : CreateOrderRequest → Except String CreateOrderResponse)
    (userID : Int) (items : List OrderItem) : Except String (Int × Int) :=
  match api { userId := userID, items := items } with
  | Except.error e => Except.error (wrapOp "grpc.order.create_order" e)
  | Except.ok resp => Except.ok (resp.orderId, resp.totalPrice)

/-- ordergrpc.Client.GetOrder: calls the stub, wraps a failure with op
"grpc.order.get_order", and otherwise returns resp.OrderDetails as is
(nil passes through with no error). -/
def GetOrder (api : GetOrderRequest → Except String GetOrderResponse)
    (orderID : Int) : Except String (Option OrderDetails) :=
  match api { orderId := orderID } with
  | Except.error e => Except.error (wrapOp "grpc.order.get_order" e)
  | Except.ok resp => Except.ok resp.orderDetails

/-- ordergrpc.Client.ListUserOrders: wraps a failure with op
"grpc.order.list_user_orders", returns resp.Orders on success. -/
def ListUserOrders (api : ListUserOrdersRequest → Except String ListUserOrdersResponse)
    (userID : Int) : Except String (List OrderDetails) :=
  match api { userId := userID } with
  | Except.error e => Except.error (wrapOp "grpc.order.list_user_orders" e)
  | Except.ok resp => Except.ok resp.orders

/-- user1.UserDetails. -/
structure UserDetails where
  userId : Int
  login : String
  email : String
  deriving DecidableEq, Repr

/-- user1.RegisterRequest. -/
structure RegisterRequest where
  email : String
  login : String
  password : String
  deriving DecidableEq, Repr

/-- user1.RegisterResponse. -/
structure RegisterResponse where
  userId : Int
  deriving DecidableEq, Repr

/-- user1.LoginRequest. -/
structure LoginRequest where
  login : String
  password : String
  deriving DecidableEq, Repr

/-- user1.LoginResponse. -/
structure LoginResponse where
  token : String
  deriving DecidableEq, Repr

/-- user1.GetUserRequest. -/
structure GetUserRequest where
  userId : Int
  deriving DecidableEq, Repr

/-- user1.GetUserResponse: the embedded UserDetails pointer may be nil. -/
structure GetUserResponse where
  userDetails : Option UserDetails
  deriving DecidableEq, Repr

/-- usergrpc.Client.Register: builds the RegisterRequest, calls the stub,
wraps a failure with op "grpc.user.register", returns resp.UserId. -/
def Register (api : RegisterRequest → Except String RegisterResponse)
    (email : String) (login : String) (password : String) : Except String Int :=
  match api { email := email, login := login, password := password } with
  | Except.error e => Except.error (wrapOp "grpc.user.register" e)
  | Except.ok resp => Except.ok resp.userId

/-- usergrpc.Client.Login: wraps a failure with op "grpc.user.login",
returns resp.Token. -/
def Login (api : LoginRequest → Except String LoginResponse)
    (login : String) (password : String) : Except String String :=
  match api { login := login, password := password } with
  | Except.error e => Except.error (wrapOp "grpc.user.login" e)
  | Except.ok resp => Except.ok resp.token

/-- usergrpc.Client.GetUser: wraps a failure with op "grpc.user.getUser";
when the call succeeds but resp.UserDetails is nil it returns the error
fmt.Errorf with "%s: user details are empty"; otherwise the details. -/
def GetUser (api : GetUserRequest → Except String GetUserResponse)
    (userID : Int) : Except String UserDetails :=
  match api { userId := userID } with
  | Except.error e => Except.error (wrapOp "grpc.user.getUser" e)
  | Except.ok resp =>
    match resp.userDetails with
    | none => Except.error (wrapOp "grpc.user.getUser" "user details are empty")
    | some d => Except.ok d

/-- product1.ProductDetails. -/
structure ProductDetails where
  id : Int
  name : String
  description : String
  price : Int
  stockCount : Int
  deriving DecidableEq, Repr

/-- product1.GetProductRequest. -/
structure GetProductRequest where
  productId : Int
  deriving DecidableEq, Repr

/-- product1.GetProductResponse: the embedded ProductDetails pointer may
be nil. -/
structure GetProductResponse where
  productDetails : Option ProductDetails
  deriving DecidableEq, Repr

/-- product1.ListProductsRequest. -/
structure ListProductsRequest where
  filter : String
  deriving DecidableEq, Repr

/-- product1.ListProductsResponse. -/
structure ListProductsResponse where
  products : List ProductDetails
  deriving DecidableEq, Repr

/-- product1.CheckStockRequest. -/
structure CheckStockRequest where
  productId : Int
  quantity : Int
  deriving DecidableEq, Repr

/-- product1.CheckStockResponse. -/
structure CheckStockResponse where
  isAvailable : Bool
  deriving DecidableEq, Repr

/-- product1.UpdateStockRequest. -/
structure UpdateStockRequest where
  productId : Int
  quantityChange : Int
  deriving DecidableEq, Repr

/-- product1.UpdateStockResponse (the adapter discards its contents). -/
structure UpdateStockResponse where
  deriving DecidableEq, Repr

/-- productgrpc.Client.GetProduct: wraps a failure with op
"grpc.product.get_product", otherwise returns resp.ProductDetails as is
(nil passes through with no error). -/
def GetProduct (api : GetProductRequest → Except String GetProductResponse)
    (productID : Int) : Except String (Option ProductDetails) :=
  match api { productId := productID } with
  | Except.error e => Except.error (wrapOp "grpc.product.get_product" e)
  | Except.ok resp => Except.ok resp.productDetails

/-- productgrpc.Client.ListProducts: wraps a failure with op
"grpc.product.list_products", returns resp.Products on success. -/
def ListProducts (api : ListProductsRequest → Except String ListProductsResponse)
    (filter : String) : Except String (List ProductDetails) :=
  match api { filter := filter } with
  | Except.error e => Except.error (wrapOp "grpc.product.list_products" e)
  | Except.ok resp => Except.ok resp.products

/-- productgrpc.Client.CheckStock: wraps a failure with op
"grpc.product.check_stock", returns resp.IsAvailable on success. -/
def CheckStock (api : CheckStockRequest → Except String CheckStockResponse)
    (productID : Int) (quantity : Int) : Except String Bool :=
  match api { productId := productID, quantity := quantity } with
  | Except.error e => Except.error (wrapOp "grpc.product.check_stock" e)
  | Except.ok resp => Except.ok resp.isAvailable

/-- productgrpc.Client.UpdateStock: wraps a failure with op
"grpc.product.update_stock", discards the response on success. -/
def UpdateStock (api : UpdateStockRequest → Except String UpdateStockResponse)
    (productID : Int) (quantityChange : Int) : Except String Unit :=
  match api { productId := productID, quantityChange := quantityChange } with
  | Except.error e => Except.error (wrapOp "grpc.product.update_stock" e)
  | Except.ok _ => Except.ok ()

/-- The operation tags of every adapter operation in the repository. -/
def adapterOpTags : List String :=
  ["grpc.user.register", "grpc.user.login", "grpc.user.getUser",
   "grpc.order.create_order", "grpc.order.get_order",
   "grpc.order.list_user_orders",
   "grpc.product.get_product", "grpc.product.list_products",
   "grpc.product.check_stock", "grpc.product.update_stock"]

/-- C2: a get-order backend response whose embedded order payload is nil
makes GetOrder return the absence (none) with no error, while a get-user
backend response whose embedded user payload is nil makes GetUser return
an error whose message contains "empty". -/
theorem absent_payload_asymmetry (orderID userID : Int) :
    GetOrder (fun _ => Except.ok { orderDetails := none }) orderID =
      Except.ok none ∧
    GetUser (fun _ => Except.ok { userDetails := none }) userID =
      Except.error (wrapOp "grpc.user.getUser" "user details are empty") ∧
    strContains (wrapOp "grpc.user.getUser" "user details are empty") "empty" =
      true :=
  ⟨rfl, rfl, by decide⟩

/-- C3: each of the ten adapter operations wraps a failing call's error
with its own operation tag, the wrapped message always contains the tag,
a failing create-order call's error contains "order.create_order", and
every tag is non-empty. -/
theorem failing_call_tagged (e em lo pw fil : String) (uid oid pid q qc : Int)
    (items : List OrderItem) :
    Register (fun _ => Except.error e) em lo pw =
      Except.error (wrapOp "grpc.user.register" e) ∧
    Login (fun _ => Except.error e) lo pw =
      Except.error (wrapOp "grpc.user.login" e) ∧
    GetUser (fun _ => Except.error e) uid =
      Except.error (wrapOp "grpc.user.getUser" e) ∧
    CreateOrder (fun _ => Except.error e) uid items =
      Except.error (wrapOp "grpc.order.create_order" e) ∧
    GetOrder (fun _ => Except.error e) oid =
      Except.error (wrapOp "grpc.order.get_order" e) ∧
    ListUserOrders (fun _ => Except.error e) uid =
      Except.error (wrapOp "grpc.order.list_user_orders" e) ∧
    GetProduct (fun _ => Except.error e) pid =
      Except.error (wrapOp "grpc.product.get_product" e) ∧
    ListProducts (fun _ => Except.error e) fil =
      Except.error (wrapOp "grpc.product.list_products" e) ∧
    CheckStock (fun _ => Except.error e) pid q =
      Except.error (wrapOp "grpc.product.check_stock" e) ∧
    UpdateStock (fun _ => Except.error e) pid qc =
      Except.error (wrapOp "grpc.product.update_stock" e) ∧
    (∀ op msg : String, strContains (wrapOp op msg) op = true) ∧
    strContains (wrapOp "grpc.order.create_order" e) "order.create_order" =
      true ∧
    adapterOpTags.all (fun t => !t.isEmpty) = true := by
  refine ⟨rfl, rfl, rfl, rfl, rfl, rfl, rfl, rfl, rfl, rfl,
    wrapOp_contains_tag, ?_, by decide⟩
  unfold wrapOp strContains
  rw [decide_eq_true_iff]
  refine ⟨"grpc.".data, (": " ++ e).data, ?_⟩
  have hdec : "grpc.".data ++ "order.create_order".data =
      "grpc.order.create_order".data := by decide
  simp [String.data_append, ← hdec]

/-- C7: NewOrderItem carries exactly the given productID, quantity and
price, and CreateOrder places the userID and the item list unchanged into
the request the backend stub receives. -/
theorem order_item_roundtrip (productID quantity price userID : Int)
    (items : List OrderItem)
    (api : CreateOrderRequest → Except String CreateOrderResponse) :
    NewOrderItem productID quantity price =
      { productId := productID, quantity := quantity, price := price } ∧
    (NewOrderItem productID quantity price).productId = productID ∧
    (NewOrderItem productID quantity price).quantity = quantity ∧
    (NewOrderItem productID quantity price).price = price ∧
    ({ userId := userID, items := items } : CreateOrderRequest).userId = userID ∧
    ({ userId := userID, items := items } : CreateOrderRequest).items = items ∧
    CreateOrder api userID items =
      (match api { userId := userID, items := items } with
       | Except.error e => Except.error (wrapOp "grpc.order.create_order" e)
       | Except.ok resp => Except.ok (resp.orderId, resp.totalPrice)) :=
  ⟨rfl, rfl, rfl, rfl, rfl, rfl, rfl⟩

/-- processorService.RegisterUser: applies the user adapter's Register
(whose outcome is the argument); on failure logs and wraps it with the
domain-facing prefix "user service error: ", otherwise passes the user
id through. -/
def RegisterUser (userRegister : Except String Int) : Except String Int :=
  match userRegister with
  | Except.error e => Except.error ("user service error: " ++ e)
  | Except.ok uid => Except.ok uid

/-- processorService.LoginUser: applies the user adapter's Login (whose
outcome is the argument); on failure wraps it with "user service
error: ", otherwise passes the token through. -/
def LoginUser (userLogin : Except String String) : Except String String :=
  match userLogin with
  | Except.error e => Except.error ("user service error: " ++ e)
  | Except.ok tok => Except.ok tok

/-- Outcome of reading and JSON-decoding an HTTP request body:
io.ReadAll failure, json.Unmarshal failure, or the decoded request. -/
inductive BodyDecode (α : Type) where
  | readError
  | jsonError
  | decoded (req : α)

/-- The JSON payloads the handlers respond with: errorResponse,
registerResponse and loginResponse (field values as marshalled). -/
inductive RespBody where
  | errorBody (msg : String)
  | registerBody (userID : Int) (msg : String)
  | loginBody (token : String) (msg : String)
  deriving DecidableEq, Repr

/-- An HTTP response: status code and JSON body. -/
structure HttpResponse where
  status : Nat
  body : RespBody
  deriving DecidableEq, Repr

/-- httphandler.registerRequest (JSON fields email, password, login; a
field missing from the JSON body unmarshals to ""). -/
structure RegisterRequestHTTP where
  email : String
  password : String
  login : String
  deriving DecidableEq, Repr

/-- httphandler.loginRequest (JSON fields login, password). -/
structure LoginRequestHTTP where
  login : String
  password : String
  deriving DecidableEq, Repr

/-- HTTPHandler.register: body read failure and JSON failure are 400;
an empty email, password or login is 400 with the exact required-field
message before the processor is consulted; a processor failure is 500;
success is 201. -/
def registerHandler (decoded : BodyDecode RegisterRequestHTTP)
    (registerUser : RegisterRequestHTTP → Except String Int) : HttpResponse :=
  match decoded with
  | BodyDecode.readError =>
    { status := 400, body := RespBody.errorBody "Failed to read request body" }
  | BodyDecode.jsonError =>
    { status := 400, body := RespBody.errorBody "Invalid JSON payload" }
  | BodyDecode.decoded req =>
    if req.email = "" ∨ req.password = "" ∨ req.login = "" then
      { status := 400,
        body := RespBody.errorBody "Email, password, and login are required" }
    else
      match registerUser req with
      | Except.error _ =>
        { status := 500, body := RespBody.errorBody "Failed to register user" }
      | Except.ok userID =>
        { status := 201,
          body := RespBody.registerBody userID "User registered successfully" }

/-- HTTPHandler.login: body read failure and JSON failure are 400; an
empty login or password is 400; any processor failure is 401 with the
generic message; success is 200 with the token. -/
def loginHandler (decoded : BodyDecode LoginRequestHTTP)
    (loginUser : LoginRequestHTTP → Except String String) : HttpResponse :=
  match decoded with
  | BodyDecode.readError =>
    { status := 400, body := RespBody.errorBody "Failed to read request body" }
  | BodyDecode.jsonError =>
    { status := 400, body := RespBody.errorBody "Invalid JSON payload" }
  | BodyDecode.decoded req =>
    if req.login = "" ∨ req.password = "" then
      { status := 400, body := RespBody.errorBody "Login and password are required" }
    else
      match loginUser req with
      | Except.error _ =>
        { status := 401, body := RespBody.errorBody "Login failed. Check credentials." }
      | Except.ok token =>
        { status := 200, body := RespBody.loginBody token "Login successful" }

/-- C4: a POST /login request that decodes with non-empty login and
password gets a 401 with the generic login-failed body whenever the
downstream LoginUser call fails, whatever the error is — never a 500 —
and the processor turns any backend error into such a failure. -/
theorem login_any_error_401 (req : LoginRequestHTTP)
    (loginUser : LoginRequestHTTP → Except String String) (e : String)
    (hl : ¬ req.login = "") (hp : ¬ req.password = "")
    (herr : loginUser req = Except.error e) :
    loginHandler (BodyDecode.decoded req) loginUser =
      { status := 401,
        body := RespBody.errorBody "Login failed. Check credentials." } ∧
    ¬ (loginHandler (BodyDecode.decoded req) loginUser).status = 500 ∧
    (∀ eb : String,
      LoginUser (Except.error eb) =
        Except.error ("user service error: " ++ eb)) := by
  have hcond : ¬ (req.login = "" ∨ req.password = "") := by
    rintro (h | h)
    · exact hl h
    · exact hp h
  have hmain : loginHandler (BodyDecode.decoded req) loginUser =
      { status := 401,
        body := RespBody.errorBody "Login failed. Check credentials." } := by
    simp only [loginHandler, if_neg hcond, herr]
  refine ⟨hmain, ?_, fun eb => rfl⟩
  rw [hmain]
  decide

/-- C4 witness: a concrete login request against a backend reporting an
outage, discharging the hypotheses of `login_any_error_401`. -/
theorem login_any_error_401_witness :
    loginHandler (BodyDecode.decoded { login := "bob", password := "pw1" })
        (fun _ => Except.error "rpc error: code = Unavailable desc = down") =
      { status := 401,
        body := RespBody.errorBody "Login failed. Check credentials." } :=
  (login_any_error_401 { login := "bob", password := "pw1" }
    (fun _ => Except.error "rpc error: code = Unavailable desc = down")
    "rpc error: code = Unavailable desc = down"
    (by decide) (by decide) rfl).1

/-- C5: a POST /register request whose body decodes but has an empty (or
missing) email, password or login gets a 400 with exactly the
required-field error body, and the response does not depend on the
downstream processor — RegisterUser is never consulted. -/
theorem register_missing_field_400 (req : RegisterRequestHTTP)
    (p1 p2 : RegisterRequestHTTP → Except String Int)
    (hmiss : req.email = "" ∨ req.password = "" ∨ req.login = "") :
    registerHandler (BodyDecode.decoded req) p1 =
      { status := 400,
        body := RespBody.errorBody "Email, password, and login are required" } ∧
    registerHandler (BodyDecode.decoded req) p1 =
      registerHandler (BodyDecode.decoded req) p2 := by
  have h1 : registerHandler (BodyDecode.decoded req) p1 =
      { status := 400,
        body := RespBody.errorBody "Email, password, and login are required" } := by
    simp only [registerHandler, if_pos hmiss]
  have h2 : registerHandler (BodyDecode.decoded req) p2 =
      { status := 400,
        body := RespBody.errorBody "Email, password, and login are required" } := by
    simp only [registerHandler, if_pos hmiss]
  exact ⟨h1, h1.trans h2.symm⟩

/-- C5 witness: a concrete register request with the password missing,
discharging the hypothesis of `register_missing_field_400`. -/
theorem register_missing_field_400_witness :
    registerHandler
        (BodyDecode.decoded { email := "a@b.c", password := "", login := "al" })
        (fun _ => Except.ok 7) =
      { status := 400,
        body := RespBody.errorBody "Email, password, and login are required" } :=
  (register_missing_field_400
    { email := "a@b.c", password := "", login := "al" }
    (fun _ => Except.ok 7) (fun _ => Except.error "never")
    (Or.inr (Or.inl rfl))).1

/-- Outcome of a Go function call that may return a value, return an
error, or panic on a nil pointer dereference. -/
inductive GoResult (α : Type) where
  | ok (a : α)
  | err (msg : String)
  | nilPanic
  deriving DecidableEq, Repr

/-- jwt.NumericDate: a claim timestamp (seconds). -/
structure NumericDate where
  time : Int
  deriving DecidableEq, Repr

/-- jwtmethod.CustomClaims: UserID plus the registered ExpiresAt and
IssuedAt claims, each a pointer in Go and hence optional. -/
structure CustomClaims where
  userID : String
  expiresAt : Option NumericDate
  issuedAt : Option NumericDate
  deriving DecidableEq, Repr

/-- Outcome of jwt.ParseWithClaims together with token.Valid and the
claims cast, abstracting the external jwt library: `parseError` is a
non-nil error from ParseWithClaims (malformed or unverifiable token, or
the wrong-signing-algorithm error raised in the key callback),
`invalid` is a parsed token with token.Valid false, `badClaims` is a
failed cast to *CustomClaims, and `verified` is a validly signed token
with its decoded claims. -/
inductive TokenParse where
  | parseError (msg : String)
  | invalid
  | badClaims
  | verified (claims : CustomClaims)
  deriving DecidableEq, Repr

/-- jwtmethod.ParseJWT after the library call, translated line by line:
wrap a library error with "parse token error: "; reject an invalid token
and a failed claims cast; reject claims whose ExpiresAt is non-nil and
strictly before now with "expired token"; then build the payload map,
dereferencing claims.ExpiresAt.Time and claims.IssuedAt.Time
unconditionally — a nil pointer there is a Go panic, modelled as
GoResult.nilPanic. The payload map {user_id, exp, iat} is modelled as a
triple. -/
def ParseJWT (token : TokenParse) (now : Int) : GoResult (String × Int × Int) :=
  match token with
  | TokenParse.parseError m => GoResult.err ("parse token error: " ++ m)
  | TokenParse.invalid => GoResult.err "invalid token"
  | TokenParse.badClaims => GoResult.err "error parse claims"
  | TokenParse.verified claims =>
    if (match claims.expiresAt with
        | some d => decide (d.time < now)
        | none => false) then
      GoResult.err "expired token"
    else
      match claims.expiresAt with
      | none => GoResult.nilPanic
      | some exp =>
        match claims.issuedAt with
        | none => GoResult.nilPanic
        | some iat => GoResult.ok (claims.userID, exp.time, iat.time)

/-- C6: a verified (validly signed) token whose claims carry an
expires-at strictly before the decode time is rejected with the
expired-token kind, not turned into a payload. -/
theorem expired_token_rejected (claims : CustomClaims) (d : NumericDate)
    (now : Int) (hexp : claims.expiresAt = some d) (hlt : d.time < now) :
    ParseJWT (TokenParse.verified claims) now = GoResult.err "expired token" := by
  simp only [ParseJWT, hexp]
  rw [if_pos]
  simpa using hlt

/-- C6 witness: a token expired 1 second before decode time, discharging
the hypotheses of `expired_token_rejected`. -/
theorem expired_token_rejected_witness :
    ParseJWT
        (TokenParse.verified
          { userID := "u1", expiresAt := some { time := 99 },
            issuedAt := some { time := 50 } }) 100 =
      GoResult.err "expired token" :=
  expired_token_rejected
    { userID := "u1", expiresAt := some { time := 99 },
      issuedAt := some { time := 50 } }
    { time := 99 } 100 rfl (by decide)

/-- C9: ParseJWT dereferences ExpiresAt and IssuedAt unconditionally when
building the success payload: a verified, non-expired token whose claims
omit expires-at (or issued-at) makes it panic — neither a payload nor one
of the four error kinds — while with both timestamps present it returns
the payload. -/
theorem parsejwt_nil_claims_panic :
    ParseJWT
        (TokenParse.verified
          { userID := "u7", expiresAt := none, issuedAt := some { time := 5 } })
        100 = GoResult.nilPanic ∧
    ParseJWT
        (TokenParse.verified
          { userID := "u7", expiresAt := some { time := 200 },
            issuedAt := none }) 100 = GoResult.nilPanic ∧
    ParseJWT
        (TokenParse.verified
          { userID := "u7", expiresAt := some { time := 200 },
            issuedAt := some { time := 5 } }) 100 =
      GoResult.ok ("u7", 200, 5) :=
  ⟨by decide, by decide, by decide⟩

/-- config.Config (durations in nanoseconds). -/
structure Config where
  env : String
  userTarget : String
  userTimeout : Int
  userRetries : Int
  orderTarget : String
  orderTimeout : Int
  orderRetries : Int
  productTarget : String
  productTimeout : Int
  productRetries : Int
  httpAddress : String
  httpTimeout : Int
  idleTimeout : Int
  deriving DecidableEq, Repr

/-- config constant defaultTimeout = 2 * time.Second, in nanoseconds. -/
def defaultTimeout : Int := 2000000000

/-- config constant defaultRetries = 3. -/
def defaultRetries : Int := 3

/-- config.setTimeout, translated line by line. time.ParseDuration is Go
standard library, abstracted as `parseDuration` (none = parse error); a
log.Fatalf is Except.error (the %v detail of the Go error is omitted
from the message). In the empty-string branch the Go source writes
`timeout := defaultTimeout`, declaring a new local that shadows the
outer `timeout` and is read only by the log line, so the function still
returns the outer variable, which keeps its zero value. -/
def setTimeout (parseDuration : String → Option Int) (strTimeout : String) :
    Except String Int :=
  let timeout : Int := 0
  if strTimeout = "" then
    Except.ok timeout
  else
    match parseDuration strTimeout with
    | none =>
      Except.error ("FATAL: Invalid format for USER_TIMEOUT: " ++ strTimeout)
    | some d => Except.ok d

/-- config.setRetries: an empty value yields defaultRetries; an
unparseable or negative value is fatal. strconv.Atoi is abstracted as
`parseInt`. -/
def setRetries (parseInt : String → Option Int) (strRetries : String) :
    Except String Int :=
  if strRetries = "" then
    Except.ok defaultRetries
  else
    match parseInt strRetries with
    | none =>
      Except.error ("FATAL: Invalid format for USER_RETRIES: " ++ strRetries)
    | some n =>
      if n < 0 then
        Except.error "FATAL: USER_RETRIES must be a non-negative integer"
      else
        Except.ok n

/-- config.MustLoad, translated line by line; the process environment is
`getenv` (os.Getenv, with "" meaning unset) and log.Fatal is
Except.error. The source guards the HTTP_ADDRESS fatal with `env == ""`
— the condition repeated from the ENV check — not with
`httpAddress == ""`, and that guard is translated as written. -/
def MustLoad (parseDuration parseInt : String → Option Int)
    (getenv : String → String) : Except String Config := do
  let env := getenv "ENV"
  if env = "" then
    throw "ENV is not set"
  let httpAddress := getenv "HTTP_ADDRESS"
  if env = "" then
    throw "HTTP_ADDRESS is not set"
  let httpTimeout ← setTimeout parseDuration (getenv "HTTP_TIMEOUT")
  let idleTimeout ← setTimeout parseDuration (getenv "IDLE_TIMEOUT")
  let userTarget := getenv "USER_TARGET"
  if userTarget = "" then
    throw "FATAL: USER_TARGET is not set"
  let userTimeout ← setTimeout parseDuration (getenv "USER_TIMEOUT")
  let userRetries ← setRetries parseInt (getenv "USER_RETRIES")
  let orderTarget := getenv "ORDER_TARGET"
  if orderTarget = "" then
    throw "FATAL: ORDER_TARGET is not set"
  let orderTimeout ← setTimeout parseDuration (getenv "ORDER_TIMEOUT")
  let orderRetries ← setRetries parseInt (getenv "ORDER_RETRIES")
  let productTarget := getenv "PRODUCT_TARGET"
  if productTarget = "" then
    throw "FATAL: PRODUCT_TARGET is not set"
  let productTimeout ← setTimeout parseDuration (getenv "PRODUCT_TIMEOUT")
  let productRetries ← setRetries parseInt (getenv "PRODUCT_RETRIES")
  return { env := env, httpAddress := httpAddress,
           httpTimeout := httpTimeout, idleTimeout := idleTimeout,
           userTarget := userTarget, userTimeout := userTimeout,
           userRetries := userRetries, orderTarget := orderTarget,
           orderTimeout := orderTimeout, orderRetries := orderRetries,
           productTarget := productTarget, productTimeout := productTimeout,
           productRetries := productRetries }

/-- A process environment with ENV and the three backend targets set but
HTTP_ADDRESS unset (and every other variable unset). -/
def envNoHttpAddress : String → String := fun k =>
  if k = "ENV" then "local"
  else if k = "USER_TARGET" then "user:50051"
  else if k = "ORDER_TARGET" then "order:50052"
  else if k = "PRODUCT_TARGET" then "product:50053"
  else ""

/-- A process environment with every required variable set and all
timeout and retries variables unset. -/
def envAllRequired : String → String := fun k =>
  if k = "ENV" then "local"
  else if k = "HTTP_ADDRESS" then ":8080"
  else if k = "USER_TARGET" then "user:50051"
  else if k = "ORDER_TARGET" then "order:50052"
  else if k = "PRODUCT_TARGET" then "product:50053"
  else ""

/-- C8: with ENV and all backend targets set but HTTP_ADDRESS absent,
MustLoad does not refuse to start — the HTTP_ADDRESS fatal is guarded by
the repeated `env == ""` condition — and instead returns a configuration
whose HttpAddress is the empty string. -/
theorem mustload_accepts_missing_http_address :
    MustLoad (fun _ => none) (fun _ => none) envNoHttpAddress =
      Except.ok
        { env := "local", httpAddress := "", httpTimeout := 0,
          idleTimeout := 0, userTarget := "user:50051", userTimeout := 0,
          userRetries := 3, orderTarget := "order:50052", orderTimeout := 0,
          orderRetries := 3, productTarget := "product:50053",
          productTimeout := 0, productRetries := 3 } := by
  rfl

/-- C10: setTimeout of the empty string returns the zero duration, not
the declared 2-second default (the default is assigned to a shadowing
local and discarded); a non-empty unparseable value terminates loading
fatally; and a full load with every timeout variable unset yields 0 for
every per-attempt timeout in the configuration. -/
theorem settimeout_empty_zero (parseDuration : String → Option Int)
    (s : String) (hne : ¬ s = "") (hbad : parseDuration s = none) :
    setTimeout parseDuration "" = Except.ok 0 ∧
    defaultTimeout = 2000000000 ∧
    setTimeout parseDuration s =
      Except.error ("FATAL: Invalid format for USER_TIMEOUT: " ++ s) ∧
    MustLoad (fun _ => none) (fun _ => none) envAllRequired =
      Except.ok
        { env := "local", httpAddress := ":8080", httpTimeout := 0,
          idleTimeout := 0, userTarget := "user:50051", userTimeout := 0,
          userRetries := 3, orderTarget := "order:50052", orderTimeout := 0,
          orderRetries := 3, productTarget := "product:50053",
          productTimeout := 0, productRetries := 3 } := by
  refine ⟨rfl, rfl, ?_, by rfl⟩
  simp only [setTimeout, if_neg hne, hbad]

/-- C10 witness: a concrete unparseable timeout value, discharging the
hypotheses of `settimeout_empty_zero`. -/
theorem settimeout_empty_zero_witness :
    setTimeout (fun _ => none) "" = Except.ok 0 :=
  (settimeout_empty_zero (fun _ => none) "oops" (by decide) rfl).1
